import Mathlib

/-
Verification of the X25519 backend (cryptography/hazmat/backends/openssl/x25519.py).

The Python classes `_X25519PublicKey` and `_X25519PrivateKey` wrap an opaque
OpenSSL `EVP_PKEY` handle together with a backend object.  Here the handle type
is a parameter `H`, the backend is a record of the provider operations the
source calls, and each method becomes a Lean function returning
`Except Error (List Nat)` (a byte string, bytes as `Nat`).
-/

namespace X25519

/-- Little-endian byte encoding: `natToLE k n` is the `k`-byte little-endian
encoding of `n` (mod `256^k`). -/
def natToLE : Nat → Nat → List Nat
  | 0, _ => []
  | k + 1, n => n % 256 :: natToLE k (n / 256)

/-- Little-endian byte decoding. -/
def decodeLE : List Nat → Nat
  | [] => 0
  | b :: bs => b + 256 * decodeLE bs

/-- `serialization.Encoding` (cryptography.hazmat.primitives.serialization). -/
inductive Encoding
  | PEM
  | DER
  | OpenSSH
  | Raw
  | X962
  | SMIME
  deriving DecidableEq

/-- `serialization.PublicFormat`. -/
inductive PublicFormat
  | SubjectPublicKeyInfo
  | PKCS1
  | OpenSSH
  | Raw
  | CompressedPoint
  | UncompressedPoint
  deriving DecidableEq

/-- `serialization.PrivateFormat`. -/
inductive PrivateFormat
  | TraditionalOpenSSL
  | PKCS8
  | Raw
  | OpenSSH
  deriving DecidableEq

/-- `serialization.KeySerializationEncryption`: either `NoEncryption()` or a
password-based scheme (`BestAvailableEncryption(password)`).  The source only
tests membership in the `NoEncryption` class. -/
inductive KeySerializationEncryption
  | NoEncryption
  | BestAvailableEncryption (password : List Nat)
  deriving DecidableEq

/-- The error taxonomy of the source: `ValueError` (invalid input combination),
`TypeError` (wrong peer type) and `InternalError` (failed `openssl_assert`,
fatal). -/
inductive Error
  | valueError (msg : String)
  | typeError (msg : String)
  | internalError (msg : String)
  deriving DecidableEq

/-- Outcome of `EVP_PKEY_get_raw_public_key` / `EVP_PKEY_get_raw_private_key`:
the C return code `res`, the length the provider reports through `buflen`, and
the bytes it wrote into the caller-allocated buffer. -/
structure RawKeyResult where
  res : Int
  buflen : Nat
  written : List Nat
  deriving DecidableEq

/-- The provider operations the source dispatches to, over handle type `H`:
the two raw-key exports, the structured-encoding collaborators
`Backend._public_key_bytes` / `Backend._private_key_bytes`, the DER round-trip
`i2d_PUBKEY_bio` / `d2i_PUBKEY_bio`, and the ECDH derive used by
`_evp_pkey_derive`. -/
structure Backend (H : Type) where
  EVP_PKEY_get_raw_public_key : H → RawKeyResult
  EVP_PKEY_get_raw_private_key : H → RawKeyResult
  public_key_bytes : Encoding → PublicFormat → H → List Nat
  private_key_bytes : Encoding → PrivateFormat → KeySerializationEncryption → H → List Nat
  i2d_PUBKEY : H → Option (List Nat)
  d2i_PUBKEY : List Nat → Option H
  derive : H → H → Except Error (List Nat)

/-- `_X25519_KEY_SIZE = 32`. -/
def keySize : Nat := 32

/-- `_X25519PublicKey`: wraps an `evp_pkey` handle (the backend is passed to
each operation explicitly). -/
structure X25519PublicKey (H : Type) where
  evp_pkey : H
  deriving DecidableEq

/-- `_X25519PrivateKey`: wraps an `evp_pkey` handle. -/
structure X25519PrivateKey (H : Type) where
  evp_pkey : H
  deriving DecidableEq

/-- The runtime argument passed to `exchange`: either an object satisfying the
`X25519PublicKey` capability (`isinstance` succeeds) or any other object. -/
inductive Peer (H : Type)
  | publicKey (pk : X25519PublicKey H)
  | other (desc : String)

/-- `_X25519PublicKey._raw_public_bytes`: allocate a 32-byte zeroed buffer,
call `EVP_PKEY_get_raw_public_key`, `openssl_assert res == 1`,
`openssl_assert buflen[0] == _X25519_KEY_SIZE`, return the 32 buffer bytes.
The buffer after the provider writes is `(written ++ zeros).take 32`. -/
def raw_public_bytes {H : Type} (b : Backend H) (k : X25519PublicKey H) :
    Except Error (List Nat) :=
  if (b.EVP_PKEY_get_raw_public_key k.evp_pkey).res = 1 then
    if (b.EVP_PKEY_get_raw_public_key k.evp_pkey).buflen = keySize then
      .ok (((b.EVP_PKEY_get_raw_public_key k.evp_pkey).written ++
        List.replicate keySize 0).take keySize)
    else .error (.internalError "openssl_assert failed")
  else .error (.internalError "openssl_assert failed")

/-- `_X25519PublicKey.public_bytes`. -/
def public_bytes {H : Type} (b : Backend H) (k : X25519PublicKey H)
    (encoding : Encoding) (format : PublicFormat) : Except Error (List Nat) :=
  if encoding = .Raw ∨ format = .Raw then
    if encoding ≠ .Raw ∨ format ≠ .Raw then
      .error (.valueError "When using Raw both encoding and format must be Raw")
    else
      raw_public_bytes b k
  else
    .ok (b.public_key_bytes encoding format k.evp_pkey)

/-- `_X25519PrivateKey.public_key`: write the public component with
`i2d_PUBKEY_bio` (`openssl_assert res == 1`), read it back with
`d2i_PUBKEY_bio` (`openssl_assert` non-NULL), wrap the new handle. -/
def public_key {H : Type} (b : Backend H) (k : X25519PrivateKey H) :
    Except Error (X25519PublicKey H) :=
  match b.i2d_PUBKEY k.evp_pkey with
  | none => .error (.internalError "openssl_assert failed")
  | some der =>
    match b.d2i_PUBKEY der with
    | none => .error (.internalError "openssl_assert failed")
    | some h => .ok ⟨h⟩

/-- Modelled from the spec: `_evp_pkey_derive`
(cryptography.hazmat.backends.openssl.utils, not under src/) dispatches to the
provider's ECDH derive operation on the two handles and returns its output
unchanged ("delegate to the provider's scalar-multiplication/derive operation
with this private key's handle and the peer's handle"). -/
def evp_pkey_derive {H : Type} (b : Backend H) (h : H)
    (peer : X25519PublicKey H) : Except Error (List Nat) :=
  b.derive h peer.evp_pkey

/-- `_X25519PrivateKey.exchange`: `isinstance` guard, then `_evp_pkey_derive`. -/
def exchange {H : Type} (b : Backend H) (k : X25519PrivateKey H)
    (peer : Peer H) : Except Error (List Nat) :=
  match peer with
  | .other _ => .error (.typeError "peer_public_key must be X25519PublicKey.")
  | .publicKey pk => evp_pkey_derive b k.evp_pkey pk

/-- `_X25519PrivateKey._raw_private_bytes`: same shape as
`_raw_public_bytes`, over `EVP_PKEY_get_raw_private_key`. -/
def raw_private_bytes {H : Type} (b : Backend H) (k : X25519PrivateKey H) :
    Except Error (List Nat) :=
  if (b.EVP_PKEY_get_raw_private_key k.evp_pkey).res = 1 then
    if (b.EVP_PKEY_get_raw_private_key k.evp_pkey).buflen = keySize then
      .ok (((b.EVP_PKEY_get_raw_private_key k.evp_pkey).written ++
        List.replicate keySize 0).take keySize)
    else .error (.internalError "openssl_assert failed")
  else .error (.internalError "openssl_assert failed")

/-- `_X25519PrivateKey.private_bytes`.  The membership test
`isinstance(encryption_algorithm, serialization.NoEncryption)` is
`alg = .NoEncryption` in this model. -/
def private_bytes {H : Type} (b : Backend H) (k : X25519PrivateKey H)
    (encoding : Encoding) (format : PrivateFormat)
    (alg : KeySerializationEncryption) : Except Error (List Nat) :=
  if encoding = .Raw ∨ format = .Raw then
    if format ≠ .Raw ∨ encoding ≠ .Raw ∨ alg ≠ .NoEncryption then
      .error (.valueError
        "When using Raw both encoding and format must be Raw and encryption_algorithm must be NoEncryption()")
    else
      raw_private_bytes b k
  else
    .ok (b.private_key_bytes encoding format alg k.evp_pkey)

/-! ### A concrete provider, modelled from the spec

The elliptic-curve arithmetic lives in the native library, outside src/.  The
spec treats it as a black box "satisfying the X25519 specification, RFC 7748":
the provider performs Curve25519 Diffie-Hellman scalar multiplication over the
prime-order subgroup generated by the base point.  That cyclic group is
modelled by `ZMod`-style arithmetic on `Nat` mod `ell` (the subgroup order),
a point being its discrete index with respect to the base point. -/

/-- Modelled from the spec: the order of the prime-order subgroup of
Curve25519 (RFC 7748). -/
def ell : Nat := 2 ^ 252 + 27742317777372353535851937790883648493

/-- Modelled from the spec: RFC 7748 scalar clamping (clear the three low bits
and bit 255, set bit 254), applied by the provider before scalar
multiplication. -/
def clamp (n : Nat) : Nat := n / 8 * 8 % 2 ^ 254 + 2 ^ 254

/-- Modelled from the spec: scalar multiplication in the cyclic subgroup. -/
def scalarMult (n P : Nat) : Nat := n * P % ell

/-- Modelled from the spec: the base point, index 1 in the cyclic model. -/
def basePoint : Nat := 1

/-- Modelled from the spec: the public point of a raw 32-byte scalar. -/
def pubOf (scalar : List Nat) : Nat :=
  scalarMult (clamp (decodeLE scalar)) basePoint

/-- Modelled from the spec: the provider's ECDH derive on a raw scalar and a
raw public point, returning the 32-byte shared secret (RFC 7748 section 5). -/
def deriveShared (scalar point : List Nat) : List Nat :=
  natToLE 32 (scalarMult (clamp (decodeLE scalar)) (decodeLE point))

/-- Modelled from the spec: an OpenSSL `EVP_PKEY` handle holds either a
private key (its 32 raw scalar bytes) or a public key (its 32 raw point
bytes). -/
inductive OpenSSLKey
  | privKey (scalar : List Nat)
  | pubKey (point : List Nat)
  deriving DecidableEq

/-- The DER SubjectPublicKeyInfo header for an X25519 public key
(30 2a 30 05 06 03 2b 65 6e 03 21 00), followed by the 32 raw point bytes. -/
def spkiHeader : List Nat := [48, 42, 48, 5, 6, 3, 43, 101, 110, 3, 33, 0]

/-- Modelled from the spec: the concrete provider over `OpenSSLKey` handles.
Raw exports report the stored byte length; `i2d_PUBKEY`/`d2i_PUBKEY` wrap and
unwrap the SubjectPublicKeyInfo header; `derive` performs the ECDH scalar
multiplication.  The structured-encoding collaborator is an external service
whose output this core never inspects. -/
def opensslBackend : Backend OpenSSLKey where
  EVP_PKEY_get_raw_public_key h :=
    match h with
    | .privKey s => ⟨1, (natToLE 32 (pubOf s)).length, natToLE 32 (pubOf s)⟩
    | .pubKey u => ⟨1, u.length, u⟩
  EVP_PKEY_get_raw_private_key h :=
    match h with
    | .privKey s => ⟨1, s.length, s⟩
    | .pubKey _ => ⟨0, 0, []⟩
  public_key_bytes _ _ _ := []
  private_key_bytes _ _ _ _ := []
  i2d_PUBKEY h :=
    match h with
    | .privKey s => some (spkiHeader ++ natToLE 32 (pubOf s))
    | .pubKey u => some (spkiHeader ++ u)
  d2i_PUBKEY der :=
    if der.length = 44 ∧ der.take 12 = spkiHeader then
      some (.pubKey (der.drop 12))
    else none
  derive h1 h2 :=
    match h1, h2 with
    | .privKey s, .pubKey u => .ok (deriveShared s u)
    | _, _ => .error (.internalError "EVP_PKEY_derive failed")

/-- Modelled from the spec: `Backend.x25519_load_private_bytes` (not under
src/) constructs a PrivateKey from 32 raw scalar bytes, consumed by the
provider as-is (pre-clamping representation). -/
def x25519_load_private_bytes (data : List Nat) :
    Option (X25519PrivateKey OpenSSLKey) :=
  if data.length = 32 then some ⟨.privKey data⟩ else none

/-! ### Helper lemmas -/

theorem length_natToLE (k n : Nat) : (natToLE k n).length = k := by
  induction k generalizing n with
  | zero => rfl
  | succ k ih => simp [natToLE, ih]

theorem decodeLE_natToLE (k n : Nat) : decodeLE (natToLE k n) = n % 256 ^ k := by
  induction k generalizing n with
  | zero => simp [natToLE, decodeLE, Nat.mod_one]
  | succ k ih =>
    rw [natToLE, decodeLE, ih, pow_succ']
    exact (Nat.mod_mul).symm

theorem ell_pos : 0 < ell := by
  have : (0:Nat) < 2 ^ 252 := Nat.pos_pow_of_pos 252 (by decide)
  exact Nat.lt_of_lt_of_le this (Nat.le_add_right _ _)

theorem ell_lt : ell < 256 ^ 32 := by
  have h1 : ell < 2 ^ 253 := by
    have : (27742317777372353535851937790883648493 : Nat) < 2 ^ 252 := by
      norm_num
    calc ell = 2 ^ 252 + 27742317777372353535851937790883648493 := rfl
      _ < 2 ^ 252 + 2 ^ 252 := by omega
      _ = 2 ^ 253 := by ring
  have h2 : (2:Nat) ^ 253 ≤ 2 ^ 256 := Nat.pow_le_pow_right (by decide) (by decide)
  have h3 : (256:Nat) ^ 32 = 2 ^ 256 := by norm_num
  omega

theorem pubOf_lt (s : List Nat) : pubOf s < ell :=
  Nat.mod_lt _ ell_pos

theorem decodeLE_natToLE_pubOf (s : List Nat) :
    decodeLE (natToLE 32 (pubOf s)) = pubOf s := by
  rw [decodeLE_natToLE]
  exact Nat.mod_eq_of_lt (Nat.lt_of_lt_of_le (pubOf_lt s) (Nat.le_of_lt ell_lt))

theorem mul_mod_mod_eq (a b n : Nat) : a * (b % n) % n = a * b % n := by
  conv_rhs => rw [Nat.mul_mod]
  rw [Nat.mul_mod, Nat.mod_mod_of_dvd b dvd_rfl]

/-- On the concrete provider, deriving the public key from a private handle
always succeeds and yields the handle holding the encoded public point. -/
theorem public_key_concrete (s : List Nat) :
    public_key opensslBackend ⟨.privKey s⟩ =
      .ok ⟨.pubKey (natToLE 32 (pubOf s))⟩ := by
  have hlen : (spkiHeader ++ natToLE 32 (pubOf s)).length = 44 := by
    simp [spkiHeader, length_natToLE]
  have htake : (spkiHeader ++ natToLE 32 (pubOf s)).take 12 = spkiHeader := by
    have : spkiHeader.length = 12 := by rfl
    rw [← this, List.take_left]
  have hdrop : (spkiHeader ++ natToLE 32 (pubOf s)).drop 12 = natToLE 32 (pubOf s) := by
    have : spkiHeader.length = 12 := by rfl
    rw [← this, List.drop_left]
  simp [public_key, opensslBackend, hlen, htake, hdrop]

/-! ### Claim theorems -/

/-- Claim C1: for every public key and every (encoding, format) pair in which
exactly one of the two is Raw, `public_bytes` fails with the ValueError
"When using Raw both encoding and format must be Raw" and produces no output;
only the pair (Raw, Raw) takes the raw export path. -/
theorem public_bytes_raw_exclusivity {H : Type} (b : Backend H)
    (k : X25519PublicKey H) (encoding : Encoding) (format : PublicFormat) :
    ((encoding = .Raw ∧ format ≠ .Raw) ∨ (encoding ≠ .Raw ∧ format = .Raw) →
      public_bytes b k encoding format =
        .error (.valueError "When using Raw both encoding and format must be Raw"))
    ∧ public_bytes b k .Raw .Raw = raw_public_bytes b k
    ∧ (encoding ≠ .Raw → format ≠ .Raw →
      public_bytes b k encoding format =
        .ok (b.public_key_bytes encoding format k.evp_pkey)) := by
  refine ⟨fun h => ?_, by simp [public_bytes], fun h1 h2 => ?_⟩
  · rcases h with ⟨h1, h2⟩ | ⟨h1, h2⟩ <;> simp [public_bytes, h1, h2]
  · simp [public_bytes, h1, h2]

/-- Witness for C1 at concrete inputs. -/
theorem public_bytes_raw_exclusivity_witness :
    public_bytes opensslBackend ⟨OpenSSLKey.pubKey (List.replicate 32 9)⟩
        Encoding.DER PublicFormat.Raw =
      .error (.valueError "When using Raw both encoding and format must be Raw") :=
  (public_bytes_raw_exclusivity opensslBackend
      ⟨OpenSSLKey.pubKey (List.replicate 32 9)⟩ .DER .Raw).1
    (Or.inr ⟨by decide, rfl⟩)

/-- Claim C2: for every private key and every
(encoding, format, encryption_algorithm) triple in which encoding or format is
Raw, `private_bytes` takes the raw export path exactly when encoding and
format are both Raw and the algorithm is NoEncryption; any other such triple
fails with the ValueError "When using Raw both encoding and format must be Raw
and encryption_algorithm must be NoEncryption()". -/
theorem private_bytes_raw_exclusivity {H : Type} (b : Backend H)
    (k : X25519PrivateKey H) (encoding : Encoding) (format : PrivateFormat)
    (alg : KeySerializationEncryption)
    (h : encoding = .Raw ∨ format = .Raw) :
    (encoding = .Raw ∧ format = .Raw ∧ alg = .NoEncryption →
      private_bytes b k encoding format alg = raw_private_bytes b k)
    ∧ (¬(encoding = .Raw ∧ format = .Raw ∧ alg = .NoEncryption) →
      private_bytes b k encoding format alg =
        .error (.valueError
          "When using Raw both encoding and format must be Raw and encryption_algorithm must be NoEncryption()")) := by
  constructor
  · rintro ⟨h1, h2, h3⟩
    simp [private_bytes, h1, h2, h3]
  · intro hn
    have hcond : format ≠ .Raw ∨ encoding ≠ .Raw ∨ alg ≠ .NoEncryption := by
      by_contra hc
      push_neg at hc
      exact hn ⟨hc.2.1, hc.1, hc.2.2⟩
    simp only [private_bytes, if_pos h, if_pos hcond]

/-- Witness for C2 at concrete inputs. -/
theorem private_bytes_raw_exclusivity_witness :
    private_bytes opensslBackend ⟨OpenSSLKey.privKey (List.replicate 32 1)⟩
        Encoding.Raw PrivateFormat.Raw
        (KeySerializationEncryption.BestAvailableEncryption [112, 119]) =
      .error (.valueError
        "When using Raw both encoding and format must be Raw and encryption_algorithm must be NoEncryption()") :=
  (private_bytes_raw_exclusivity opensslBackend
      ⟨OpenSSLKey.privKey (List.replicate 32 1)⟩ .Raw .Raw
      (.BestAvailableEncryption [112, 119]) (Or.inl rfl)).2
    (by simp)

/-- Claim C10: when neither encoding nor format is Raw, `private_bytes` never
fails with a ValueError, whatever the encryption algorithm: the call is
delegated unconditionally to the structured-encoding collaborator with the
algorithm passed through unvalidated. -/
theorem private_bytes_nonraw_delegates {H : Type} (b : Backend H)
    (k : X25519PrivateKey H) (encoding : Encoding) (format : PrivateFormat)
    (alg : KeySerializationEncryption)
    (h1 : encoding ≠ .Raw) (h2 : format ≠ .Raw) :
    private_bytes b k encoding format alg =
      .ok (b.private_key_bytes encoding format alg k.evp_pkey)
    ∧ ∀ msg, private_bytes b k encoding format alg ≠ .error (.valueError msg) := by
  have heq : private_bytes b k encoding format alg =
      .ok (b.private_key_bytes encoding format alg k.evp_pkey) := by
    simp [private_bytes, h1, h2]
  exact ⟨heq, fun msg hmsg => by rw [heq] at hmsg; exact Except.noConfusion hmsg⟩

/-- Witness for C10 at concrete inputs. -/
theorem private_bytes_nonraw_delegates_witness :
    private_bytes opensslBackend ⟨OpenSSLKey.privKey (List.replicate 32 1)⟩
        Encoding.PEM PrivateFormat.PKCS8
        (KeySerializationEncryption.BestAvailableEncryption [112, 119]) =
      .ok [] :=
  (private_bytes_nonraw_delegates opensslBackend
      ⟨OpenSSLKey.privKey (List.replicate 32 1)⟩ .PEM .PKCS8
      (.BestAvailableEncryption [112, 119]) (by decide) (by decide)).1

/-- Claim C3 (amended): a peer that does not satisfy the X25519 public-key
capability makes `exchange` fail with the TypeError
"peer_public_key must be X25519PublicKey." (trailing period as in the source)
before any provider call occurs — the result is the same under any two
backends; a peer that does satisfy it reaches the provider's derive. -/
theorem exchange_type_guard {H : Type} (b b2 : Backend H)
    (k : X25519PrivateKey H) (desc : String) :
    exchange b k (.other desc) =
      .error (.typeError "peer_public_key must be X25519PublicKey.")
    ∧ exchange b k (.other desc) = exchange b2 k (.other desc)
    ∧ ∀ pk : X25519PublicKey H,
        exchange b k (.publicKey pk) = b.derive k.evp_pkey pk.evp_pkey :=
  ⟨rfl, rfl, fun _ => rfl⟩

/-- Counterexample to C3 as stated: the source's TypeError message carries a
trailing period, so the claimed message without it is not the one raised. -/
theorem exchange_type_guard_counterexample :
    exchange opensslBackend ⟨OpenSSLKey.privKey (List.replicate 32 1)⟩
        (.other "int") =
      .error (.typeError "peer_public_key must be X25519PublicKey.")
    ∧ exchange opensslBackend ⟨OpenSSLKey.privKey (List.replicate 32 1)⟩
        (.other "int") ≠
      .error (.typeError "peer_public_key must be X25519PublicKey") :=
  ⟨rfl, fun h => absurd (Error.typeError.inj (Except.error.inj h)) (by decide)⟩

/-- Claim C4: a successful raw export (public or private) is exactly 32 bytes;
if the provider's raw-key export reports a failed status or any length other
than 32, the raw path fails with the fatal internal assertion instead of
returning wrong-length material; and every successful exchange on the concrete
provider yields exactly 32 bytes. -/
theorem raw_export_fixed_size :
    (∀ {H : Type} (b : Backend H) (k : X25519PublicKey H) (out : List Nat),
      raw_public_bytes b k = .ok out → out.length = 32)
    ∧ (∀ {H : Type} (b : Backend H) (k : X25519PrivateKey H) (out : List Nat),
      raw_private_bytes b k = .ok out → out.length = 32)
    ∧ (∀ {H : Type} (b : Backend H) (k : X25519PublicKey H),
      (b.EVP_PKEY_get_raw_public_key k.evp_pkey).res ≠ 1 ∨
        (b.EVP_PKEY_get_raw_public_key k.evp_pkey).buflen ≠ 32 →
      raw_public_bytes b k = .error (.internalError "openssl_assert failed"))
    ∧ (∀ {H : Type} (b : Backend H) (k : X25519PrivateKey H),
      (b.EVP_PKEY_get_raw_private_key k.evp_pkey).res ≠ 1 ∨
        (b.EVP_PKEY_get_raw_private_key k.evp_pkey).buflen ≠ 32 →
      raw_private_bytes b k = .error (.internalError "openssl_assert failed"))
    ∧ (∀ (s u out : List Nat),
      exchange opensslBackend ⟨.privKey s⟩ (.publicKey ⟨.pubKey u⟩) = .ok out →
      out.length = 32) := by
  refine ⟨?_, ?_, ?_, ?_, ?_⟩
  · intro H b k out h
    unfold raw_public_bytes at h
    split at h
    · split at h
      · cases Except.ok.inj h
        simp only [List.length_take, List.length_append, List.length_replicate,
          keySize]
        omega
      · exact Except.noConfusion h
    · exact Except.noConfusion h
  · intro H b k out h
    unfold raw_private_bytes at h
    split at h
    · split at h
      · cases Except.ok.inj h
        simp only [List.length_take, List.length_append, List.length_replicate,
          keySize]
        omega
      · exact Except.noConfusion h
    · exact Except.noConfusion h
  · intro H b k h
    rcases h with h | h <;> simp [raw_public_bytes, keySize, h]
  · intro H b k h
    rcases h with h | h <;> simp [raw_private_bytes, keySize, h]
  · intro s u out h
    have : deriveShared s u = out := Except.ok.inj h
    subst this
    simp [deriveShared, length_natToLE]

/-- Witness for C4 at concrete inputs. -/
theorem raw_export_fixed_size_witness :
    (List.replicate 32 9).length = 32
    ∧ raw_private_bytes opensslBackend ⟨OpenSSLKey.privKey [5]⟩ =
        .error (.internalError "openssl_assert failed")
    ∧ (deriveShared (List.replicate 32 2) (List.replicate 32 3)).length = 32 :=
  ⟨raw_export_fixed_size.1 opensslBackend
      ⟨OpenSSLKey.pubKey (List.replicate 32 9)⟩ _ rfl,
    raw_export_fixed_size.2.2.2.1 opensslBackend
      ⟨OpenSSLKey.privKey [5]⟩ (Or.inr (by decide)),
    raw_export_fixed_size.2.2.2.2 (List.replicate 32 2) (List.replicate 32 3) _
      rfl⟩

/-- Claim C5: `exchange` on a valid peer returns exactly the provider's ECDH
derive output on the two key handles, with no key derivation or other
transformation applied; on the concrete provider that output is 32 bytes. -/
theorem exchange_returns_derive_output :
    (∀ {H : Type} (b : Backend H) (k : X25519PrivateKey H)
        (pk : X25519PublicKey H),
      exchange b k (.publicKey pk) = evp_pkey_derive b k.evp_pkey pk
      ∧ evp_pkey_derive b k.evp_pkey pk = b.derive k.evp_pkey pk.evp_pkey)
    ∧ (∀ (s u out : List Nat),
      opensslBackend.derive (.privKey s) (.pubKey u) = .ok out →
      out.length = 32) := by
  refine ⟨fun b k pk => ⟨rfl, rfl⟩, fun s u out h => ?_⟩
  have : deriveShared s u = out := Except.ok.inj h
  subst this
  simp [deriveShared, length_natToLE]

/-- Witness for C5 at concrete inputs. -/
theorem exchange_returns_derive_output_witness :
    (deriveShared (List.replicate 32 2) (List.replicate 32 3)).length = 32 :=
  exchange_returns_derive_output.2 (List.replicate 32 2) (List.replicate 32 3)
    _ rfl

/-- Claim C6: `public_key` re-derives the public point fresh from the private
key's current handle via the provider's DER round-trip, wrapping the resulting
provider-native key object as a new PublicKey; the result depends on nothing
but the private handle (no cached or stored public state). -/
theorem public_key_rederives {H : Type} (b : Backend H)
    (k : X25519PrivateKey H) :
    (∀ (der : List Nat) (h2 : H),
      b.i2d_PUBKEY k.evp_pkey = some der → b.d2i_PUBKEY der = some h2 →
      public_key b k = .ok ⟨h2⟩)
    ∧ (∀ k2 : X25519PrivateKey H, k.evp_pkey = k2.evp_pkey →
      public_key b k = public_key b k2) := by
  constructor
  · intro der h2 hi hd
    simp [public_key, hi, hd]
  · intro k2 hk
    simp [public_key, hk]

/-- Witness for C6 at concrete inputs. -/
theorem public_key_rederives_witness :
    public_key opensslBackend ⟨OpenSSLKey.privKey (List.replicate 32 4)⟩ =
      .ok ⟨OpenSSLKey.pubKey (natToLE 32 (pubOf (List.replicate 32 4)))⟩ :=
  (public_key_rederives opensslBackend
      ⟨OpenSSLKey.privKey (List.replicate 32 4)⟩).1
    (spkiHeader ++ natToLE 32 (pubOf (List.replicate 32 4)))
    (OpenSSLKey.pubKey (natToLE 32 (pubOf (List.replicate 32 4)))) rfl rfl

/-- Claim C7: deriving the public key of the same private key twice yields two
PublicKey values whose raw exports are byte-for-byte identical. -/
theorem public_key_deterministic {H : Type} (b : Backend H)
    (k : X25519PrivateKey H) (pk1 pk2 : X25519PublicKey H)
    (h1 : public_key b k = .ok pk1) (h2 : public_key b k = .ok pk2) :
    public_bytes b pk1 .Raw .Raw = public_bytes b pk2 .Raw .Raw := by
  have : pk1 = pk2 := Except.ok.inj (h1.symm.trans h2)
  rw [this]

/-- Witness for C7 at concrete inputs. -/
theorem public_key_deterministic_witness :
    public_bytes opensslBackend
        ⟨OpenSSLKey.pubKey (natToLE 32 (pubOf (List.replicate 32 4)))⟩
        .Raw .Raw =
      public_bytes opensslBackend
        ⟨OpenSSLKey.pubKey (natToLE 32 (pubOf (List.replicate 32 4)))⟩
        .Raw .Raw :=
  public_key_deterministic opensslBackend
    ⟨OpenSSLKey.privKey (List.replicate 32 4)⟩ _ _
    (public_key_concrete (List.replicate 32 4))
    (public_key_concrete (List.replicate 32 4))

/-- Claim C8: Diffie-Hellman commutativity on the concrete provider — for all
valid key pairs, exchanging a's private key with b's public key yields the
same shared secret as exchanging b's private key with a's public key. -/
theorem exchange_symmetry (sa sb : List Nat) (ha : sa.length = 32)
    (hb : sb.length = 32) (pa pb : X25519PublicKey OpenSSLKey)
    (hpa : public_key opensslBackend ⟨.privKey sa⟩ = .ok pa)
    (hpb : public_key opensslBackend ⟨.privKey sb⟩ = .ok pb) :
    exchange opensslBackend ⟨.privKey sa⟩ (.publicKey pb) =
      exchange opensslBackend ⟨.privKey sb⟩ (.publicKey pa) := by
  have hpa2 : pa = ⟨.pubKey (natToLE 32 (pubOf sa))⟩ :=
    Except.ok.inj (hpa.symm.trans (public_key_concrete sa))
  have hpb2 : pb = ⟨.pubKey (natToLE 32 (pubOf sb))⟩ :=
    Except.ok.inj (hpb.symm.trans (public_key_concrete sb))
  subst hpa2
  subst hpb2
  show Except.ok (deriveShared sa (natToLE 32 (pubOf sb))) =
    Except.ok (deriveShared sb (natToLE 32 (pubOf sa)))
  have key : deriveShared sa (natToLE 32 (pubOf sb)) =
      deriveShared sb (natToLE 32 (pubOf sa)) := by
    unfold deriveShared
    rw [decodeLE_natToLE_pubOf, decodeLE_natToLE_pubOf]
    unfold pubOf scalarMult basePoint
    rw [mul_one, mul_one, mul_mod_mod_eq, mul_mod_mod_eq,
      Nat.mul_comm (clamp (decodeLE sa))]
  rw [key]

/-- Witness for C8 at concrete inputs. -/
theorem exchange_symmetry_witness :
    exchange opensslBackend ⟨OpenSSLKey.privKey (List.replicate 32 2)⟩
        (.publicKey ⟨OpenSSLKey.pubKey (natToLE 32 (pubOf (List.replicate 32 3)))⟩) =
      exchange opensslBackend ⟨OpenSSLKey.privKey (List.replicate 32 3)⟩
        (.publicKey ⟨OpenSSLKey.pubKey (natToLE 32 (pubOf (List.replicate 32 2)))⟩) :=
  exchange_symmetry (List.replicate 32 2) (List.replicate 32 3)
    (by decide) (by decide) _ _
    (public_key_concrete (List.replicate 32 2))
    (public_key_concrete (List.replicate 32 3))

/-- Claim C9: constructing a private key from any valid 32-byte raw scalar and
exporting it with `private_bytes(Raw, Raw, NoEncryption())` yields exactly the
scalar back. -/
theorem private_bytes_raw_roundtrip (s : List Nat)
    (k : X25519PrivateKey OpenSSLKey) (hs : s.length = 32)
    (hk : x25519_load_private_bytes s = some k) :
    private_bytes opensslBackend k .Raw .Raw .NoEncryption = .ok s := by
  unfold x25519_load_private_bytes at hk
  rw [if_pos hs] at hk
  cases Option.some.inj hk
  simp [private_bytes, raw_private_bytes, opensslBackend, keySize, hs,
    List.take_left' hs]

/-- Witness for C9 at concrete inputs. -/
theorem private_bytes_raw_roundtrip_witness :
    private_bytes opensslBackend ⟨OpenSSLKey.privKey (List.replicate 32 7)⟩
        .Raw .Raw .NoEncryption = .ok (List.replicate 32 7) :=
  private_bytes_raw_roundtrip (List.replicate 32 7) _ (by decide) rfl

end X25519
